import Mathlib

/-!
Shallow embedding of the siglog logging facility (Go sources: logging.go,
level.go, output.go, batch.go) for checking its natural-language
specification.

Conventions of the embedding:
* Go strings are Lean `String`s; the program only ever inspects the last
  byte of a message against the ASCII byte 0x0A, and in UTF-8 the byte
  0x0A occurs only as the one-byte rune of the newline character, so the
  Go byte test `s[len(s)-1] != a newline` is exactly the Lean character
  test on `s.data.getLast?`.
* `time.Now()` rendered through a layout is a parameter `now : String`
  (and `today : String` for the date) threaded to each call site.
* Process-wide configuration (`GetLogLevel`, `GetOutput`, `GetBatchMode`)
  is re-read from the environment at every decision point in the Go code;
  the engine functions therefore take the current `Config` value as a
  parameter, so a change between two calls is a different parameter.
* Go `int` is `Int`; slice/string lengths are cast from `Nat`.
* A Go map lookup of a missing key yields the zero value of the element
  type; lookups are embedded as `Option` plus `getD` of the zero value.
* I/O is embedded as an explicit `Effects` value: the list of successful
  writes (destination, content) plus the list of messages printed on the
  error console via `fmt.Fprintln(os.Stderr, ...)`.
* A file handle is `Option Unit`: `none` is a nil handle (open failed).
-/

namespace Siglog

/-- Logging levels, in the Go declaration order (`iota`): the integer
values are NONE=0, ERROR=1, WARN=2, INFO=3, DEBUG=4. -/
inductive LogLevel where
  | LL_NONE
  | LL_ERROR
  | LL_WARN
  | LL_INFO
  | LL_DEBUG
deriving DecidableEq, Repr

open LogLevel

/-- The underlying Go integer of a LogLevel (`type LogLevel int`). -/
def LogLevel.toNat : LogLevel → Nat
  | LL_NONE => 0
  | LL_ERROR => 1
  | LL_WARN => 2
  | LL_INFO => 3
  | LL_DEBUG => 4

/-- levelName map from level.go (total: every level has a name). -/
def levelName : LogLevel → String
  | LL_NONE => "NONE"
  | LL_ERROR => "ERROR"
  | LL_WARN => "WARN"
  | LL_INFO => "INFO"
  | LL_DEBUG => "DEBUG"

/-- levelValue map from level.go; `none` models a missing key. -/
def levelValue : String → Option LogLevel
  | "NONE" => Option.some LL_NONE
  | "DEBUG" => Option.some LL_DEBUG
  | "INFO" => Option.some LL_INFO
  | "WARN" => Option.some LL_WARN
  | "ERROR" => Option.some LL_ERROR
  | _ => Option.none

/-- GetLogLevel from level.go, as a function of the current value of the
environment variable ENV_SL_LOGGING_LEVEL.  Returns the level together
with the value the variable holds afterwards: an empty token calls
SetLogLevel(LL_NONE) (storing "NONE") and returns LL_NONE; otherwise the
variable is left alone and `levelValue[token]` is returned, a missing key
giving the Go zero value LogLevel(0) = LL_NONE. -/
def GetLogLevel (env : String) : LogLevel × String :=
  if env = "" then (LL_NONE, levelName LL_NONE)
  else ((levelValue env).getD LL_NONE, env)

/-- Outputs from output.go (`iota`). -/
inductive Output where
  | OUT_STDOUT
  | OUT_STDERR
  | OUT_FILE
deriving DecidableEq, Repr

open Output

/-- Batch modes from batch.go (`iota`). -/
inductive BatchMode where
  | BATCH_NONE
  | BATCH_ITEM
  | BATCH_BYTE
  | BATCH_TIME
deriving DecidableEq, Repr

open BatchMode

/-- The snapshot of the process-wide configuration the Go code reads from
environment variables at a given decision point. -/
structure Config where
  level : LogLevel
  out : Output
  batch : BatchMode
deriving DecidableEq, Repr

/-- logEntry struct from logging.go. -/
structure logEntry where
  caller : String
  entry : String
  level : LogLevel
deriving DecidableEq, Repr

/-- Sentinel from logging.go. -/
def COULD_NOT_WRITE_ENTRY : String := "Could not write entry to log buffer."

/-- formatByLevel from logging.go.  The Go function mutates only its
by-value copy of the argument: the normalization appends a newline when
the message is empty or does not already end in one.  The level token is
`levelName[GetLogLevel()]`: the currently configured level, not the
entry's own level.  The appends are grouped to the right so that the
output is literally `now ++ rest` with `rest` independent of `now`.
It always returns a nil error (`Except.ok`). -/
def formatByLevel (cfgLevel : LogLevel) (now : String) (le : logEntry) :
    Except String String :=
  let msg :=
    if le.entry.data.getLast? = Option.some '\n' then le.entry
    else le.entry ++ "\n"
  Except.ok
    (now ++ (": [" ++ (le.caller ++ ("][" ++ (levelName cfgLevel ++ ("] - " ++ msg))))))

/-- The `msg, err := formatByLevel(...); if err != nil { msg = sentinel }`
pattern shared by the worker loop and the three batching appends. -/
def msgOrSentinel (r : Except String String) : String :=
  match r with
  | Except.ok s => s
  | Except.error _ => COULD_NOT_WRITE_ENTRY

/-- The three write destinations of writeToOut. -/
inductive Dest where
  | stdout
  | stderr
  | file
deriving DecidableEq, Repr

/-- Observable I/O of a computation: successful writes (destination and
content, in order) and messages printed to the error console. -/
structure Effects where
  writes : List (Dest × String)
  errs : List String
deriving DecidableEq, Repr

/-- No I/O. -/
def noEff : Effects := { writes := [], errs := [] }

/-- Sequential composition of effects. -/
def Effects.app (a b : Effects) : Effects :=
  { writes := a.writes ++ b.writes, errs := a.errs ++ b.errs }

/-- writeToOut from logging.go: writes the already-assembled string to the
destination selected by the current output configuration.  For OUT_FILE
with a nil handle it prints a failure message on the error console and
returns, writing nothing; it assigns no logger field. -/
def writeToOut (o : Output) (file : Option Unit) (s : String) : Effects :=
  match o with
  | OUT_STDOUT => { writes := [(Dest.stdout, s)], errs := [] }
  | OUT_STDERR => { writes := [(Dest.stderr, s)], errs := [] }
  | OUT_FILE =>
      match file with
      | Option.none =>
          { writes := [], errs := ["Could not open log file for writing."] }
      | Option.some _ => { writes := [(Dest.file, s)], errs := [] }

/-- logger struct from logging.go.  `queue` is the `in` channel (renamed:
`in` is a Lean keyword), holding the sent pointers in order, `Option.none`
being a nil pointer; `queueClosed` records `close(in)`; `timerArmed`
records whether the batch timer is currently armed (newLogger stops it
right after creation); `wgCount` is the sync.WaitGroup counter. -/
structure LoggerState where
  file : Option Unit
  queue : List (Option logEntry)
  queueClosed : Bool
  date : String
  maxItems : Int
  maxBytes : Int
  batchBuf : List String
  maxWait : Int
  timerArmed : Bool
  wgCount : Nat
deriving DecidableEq, Repr

/-- newLogger from logging.go: `file` is the result of the OpenFile call
(`none` when it failed), defaults maxItems=128, maxBytes=512,
maxWait=250ms (nanoseconds), empty batch buffer, timer created and
immediately stopped/drained. -/
def newLogger (file : Option Unit) (today : String) : LoggerState :=
  { file := file
    queue := []
    queueClosed := false
    date := today
    maxItems := 128
    maxBytes := 512
    batchBuf := []
    maxWait := 250000000
    timerArmed := false
    wgCount := 0 }

/-- appendItemToBatch from logging.go: format (falling back to the
sentinel on error), append to batchBuf, and when `maxItems > 0 and
len(batchBuf) >= maxItems`, join the buffer, write it out and clear the
buffer, returning true. -/
def appendItemToBatch (cfg : Config) (now : String) (st : LoggerState)
    (e : logEntry) : LoggerState × Effects × Bool :=
  let msg := msgOrSentinel (formatByLevel cfg.level now e)
  let st₁ := { st with batchBuf := st.batchBuf ++ [msg] }
  if ¬ (st₁.maxItems > 0 ∧ (st₁.batchBuf.length : Int) ≥ st₁.maxItems) then
    (st₁, noEff, false)
  else
    let out := String.join st₁.batchBuf
    ({ st₁ with batchBuf := [] }, writeToOut cfg.out st₁.file out, true)

/-- appendBytesToBatch from logging.go: like appendItemToBatch but the
trigger is the byte length (Go `len` of a string counts bytes) of the
joined buffer reaching maxBytes. -/
def appendBytesToBatch (cfg : Config) (now : String) (st : LoggerState)
    (e : logEntry) : LoggerState × Effects × Bool :=
  let msg := msgOrSentinel (formatByLevel cfg.level now e)
  let st₁ := { st with batchBuf := st.batchBuf ++ [msg] }
  let out := String.join st₁.batchBuf
  if ¬ (st₁.maxBytes > 0 ∧ (out.utf8ByteSize : Int) ≥ st₁.maxBytes) then
    (st₁, noEff, false)
  else
    ({ st₁ with batchBuf := [] }, writeToOut cfg.out st₁.file out, true)

/-- appendToTimer from logging.go: format (with sentinel fallback) and
append to batchBuf.  It touches neither the timer nor the wait group. -/
def appendToTimer (cfg : Config) (now : String) (st : LoggerState)
    (e : logEntry) : LoggerState :=
  let msg := msgOrSentinel (formatByLevel cfg.level now e)
  { st with batchBuf := st.batchBuf ++ [msg] }

/-- LogEntry from logging.go: return immediately when the configured
level is LL_NONE; otherwise build the logEntry and dispatch on the batch
mode; the switch default (BATCH_NONE) does wg.Add(1) and sends the entry
on the channel. -/
def LogEntry (cfg : Config) (now : String) (st : LoggerState)
    (entry caller : String) (level : LogLevel) : LoggerState × Effects :=
  if cfg.level = LL_NONE then (st, noEff)
  else
    let le : logEntry := { caller := caller, entry := entry, level := level }
    match cfg.batch with
    | BATCH_ITEM =>
        let r := appendItemToBatch cfg now st le
        (r.1, r.2.1)
    | BATCH_BYTE =>
        let r := appendBytesToBatch cfg now st le
        (r.1, r.2.1)
    | BATCH_TIME => (appendToTimer cfg now st le, noEff)
    | BATCH_NONE =>
        ({ st with wgCount := st.wgCount + 1, queue := st.queue ++ [Option.some le] },
         noEff)

/-- Flush is `wg.Wait()`: it returns exactly when the counter is zero,
and blocks forever otherwise. -/
def FlushReturns (st : LoggerState) : Prop := st.wgCount = 0

/-- Shutdown from logging.go: Flush() (the caller must be in a state
where Flush returns, i.e. FlushReturns holds), then close(in).  It
performs no write of its own. -/
def Shutdown (st : LoggerState) : LoggerState :=
  { st with queueClosed := true }

/-- The two external event sources of the worker loop select: a channel
receive (a real entry, a nil pointer, or the closed-channel signal) and
the timer fire. -/
inductive LoopEvent where
  | recvClosed
  | recv (e : Option logEntry)
  | timerFire
deriving DecidableEq, Repr

/-- Result of one iteration of the worker loop: the new state, the I/O it
performed, how many times wg.Done() was called (0 or 1), and whether the
loop returned (running its deferred file close). -/
structure LoopResult where
  st : LoggerState
  eff : Effects
  wgDones : Nat
  exits : Bool
deriving DecidableEq, Repr

/-- rotate from logging.go: flush and close the old handle, open the new
dated file; `reopen` is the OpenFile result.  On failure it reports to
the error console and returns with fields unchanged. -/
def rotate (reopen : Option Unit) (today : String) (st : LoggerState) :
    LoggerState × Effects :=
  match reopen with
  | Option.none => (st, { writes := [], errs := ["Could not create next day log file."] })
  | Option.some _ => ({ st with file := reopen, date := today }, noEff)

/-- One iteration of logger.loop from logging.go.
Entry branch: a closed channel returns; a nil entry does wg.Done and
continues; otherwise, when the configured level is LL_NONE the entry is
dropped by `continue` WITHOUT calling wg.Done; else the entry is
formatted and written when its level is at or below the configured one,
then the date is checked for rotation, then wg.Done.
Timer branch: join batchBuf, write it, clear, re-arm the timer when
maxWait > 0, wg.Done. -/
def loopStep (cfg : Config) (today now : String) (reopen : Option Unit)
    (st : LoggerState) (ev : LoopEvent) : LoopResult :=
  match ev with
  | LoopEvent.recvClosed => { st := st, eff := noEff, wgDones := 0, exits := true }
  | LoopEvent.recv Option.none =>
      { st := st, eff := noEff, wgDones := 1, exits := false }
  | LoopEvent.recv (Option.some e) =>
      if cfg.level = LL_NONE then
        { st := st, eff := noEff, wgDones := 0, exits := false }
      else
        let eff₁ :=
          if e.level.toNat ≤ cfg.level.toNat then
            writeToOut cfg.out st.file (msgOrSentinel (formatByLevel cfg.level now e))
          else noEff
        let r₂ := if today ≠ st.date then rotate reopen today st else (st, noEff)
        { st := r₂.1, eff := eff₁.app r₂.2, wgDones := 1, exits := false }
  | LoopEvent.timerFire =>
      let out := String.join st.batchBuf
      let eff := writeToOut cfg.out st.file out
      let st₁ := { st with batchBuf := [] }
      let st₂ := if st₁.maxWait > 0 then { st₁ with timerArmed := true } else st₁
      { st := st₂, eff := eff, wgDones := 1, exits := false }

/-- Run a sequence of LogEntry calls under a fixed configuration, each
with its own `now` timestamp, accumulating effects in order. -/
def runEntries (cfg : Config) : LoggerState → List (String × logEntry) →
    LoggerState × Effects
  | st, [] => (st, noEff)
  | st, (now, e) :: rest =>
      let r := LogEntry cfg now st e.entry e.caller e.level
      let r₂ := runEntries cfg r.1 rest
      (r₂.1, r.2.app r₂.2)

/-- The destination a given output configuration selects. -/
def sinkDest : Output → Dest
  | OUT_STDOUT => Dest.stdout
  | OUT_STDERR => Dest.stderr
  | OUT_FILE => Dest.file

/-- String suffix test at character level. -/
def strEndsWith (s t : String) : Bool := t.data.isSuffixOf s.data

/-- The string ends with exactly one trailing newline: its last character
is a newline and the character before (if any) is not. -/
def exactlyOneTrailingNL (s : String) : Prop :=
  s.data.getLast? = Option.some '\n' ∧ s.data.dropLast.getLast? ≠ Option.some '\n'

end Siglog

namespace Siglog

open LogLevel Output BatchMode

/-- Rendering of one (timestamp, entry) pair through the default
formatter with the sentinel fallback, as every consumer of
formatByLevel in logging.go computes it. -/
def renderAt (lvl : LogLevel) (p : String × logEntry) : String :=
  msgOrSentinel (formatByLevel lvl p.1 p.2)

instance (st : LoggerState) : Decidable (FlushReturns st) :=
  inferInstanceAs (Decidable (st.wgCount = 0))

instance (s : String) : Decidable (exactlyOneTrailingNL s) :=
  inferInstanceAs (Decidable (s.data.getLast? = Option.some '\n' ∧
    s.data.dropLast.getLast? ≠ Option.some '\n'))

lemma noEff_app (e : Effects) : noEff.app e = e := by
  cases e; simp [Effects.app, noEff]

lemma app_noEff (e : Effects) : e.app noEff = e := by
  cases e; simp [Effects.app, noEff]

lemma app_assoc (a b c : Effects) : (a.app b).app c = a.app (b.app c) := by
  cases a; cases b; cases c
  simp [Effects.app, List.append_assoc]

lemma getLast?_append_right {α : Type} (a b : List α) {c : α}
    (h : b.getLast? = Option.some c) : (a ++ b).getLast? = Option.some c := by
  rw [List.getLast?_append, h]
  rfl

lemma data_getLast?_append (a b : String) {c : Char}
    (h : b.data.getLast? = Option.some c) :
    (a ++ b).data.getLast? = Option.some c := by
  rw [String.data_append]
  exact getLast?_append_right a.data b.data h

lemma exactlyOneTrailingNL_of_data (s : String) (l : List Char)
    (h : s.data = l ++ ['\n']) (h2 : l.getLast? ≠ Option.some '\n') :
    exactlyOneTrailingNL s := by
  unfold exactlyOneTrailingNL
  rw [h, List.getLast?_concat, List.dropLast_concat]
  exact ⟨rfl, h2⟩

lemma writeToOut_ok (o : Output) (f : Option Unit) (s : String)
    (h : o = OUT_FILE → f ≠ Option.none) :
    writeToOut o f s = { writes := [(sinkDest o, s)], errs := [] } := by
  cases o with
  | OUT_STDOUT => rfl
  | OUT_STDERR => rfl
  | OUT_FILE =>
      cases f with
      | none => exact absurd rfl (h rfl)
      | some u => rfl

lemma LogEntry_item_step (cfg : Config) (now : String) (st : LoggerState)
    (e : logEntry) (hb : cfg.batch = BATCH_ITEM) (hl : cfg.level ≠ LL_NONE)
    (hno : ¬ (st.maxItems > 0 ∧ ((st.batchBuf.length : Int) + 1) ≥ st.maxItems)) :
    LogEntry cfg now st e.entry e.caller e.level =
      ({ st with batchBuf := st.batchBuf ++ [renderAt cfg.level (now, e)] }, noEff) := by
  have hcond : ¬ ((({ st with batchBuf := st.batchBuf ++
      [msgOrSentinel (formatByLevel cfg.level now e)] } : LoggerState)).maxItems > 0 ∧
      ((({ st with batchBuf := st.batchBuf ++
        [msgOrSentinel (formatByLevel cfg.level now e)] } : LoggerState)).batchBuf.length : Int) ≥
      (({ st with batchBuf := st.batchBuf ++
        [msgOrSentinel (formatByLevel cfg.level now e)] } : LoggerState)).maxItems) := by
    simp only [List.length_append, List.length_singleton]
    push_cast
    omega
  simp only [LogEntry, if_neg hl, hb]
  simp only [appendItemToBatch, if_pos hcond]
  rfl

lemma LogEntry_item_trigger (cfg : Config) (now : String) (st : LoggerState)
    (e : logEntry) (hb : cfg.batch = BATCH_ITEM) (hl : cfg.level ≠ LL_NONE)
    (hyes : st.maxItems > 0 ∧ ((st.batchBuf.length : Int) + 1) ≥ st.maxItems) :
    LogEntry cfg now st e.entry e.caller e.level =
      ({ st with batchBuf := [] },
       writeToOut cfg.out st.file
         (String.join (st.batchBuf ++ [renderAt cfg.level (now, e)]))) := by
  have hcond : ¬ ¬ ((({ st with batchBuf := st.batchBuf ++
      [msgOrSentinel (formatByLevel cfg.level now e)] } : LoggerState)).maxItems > 0 ∧
      ((({ st with batchBuf := st.batchBuf ++
        [msgOrSentinel (formatByLevel cfg.level now e)] } : LoggerState)).batchBuf.length : Int) ≥
      (({ st with batchBuf := st.batchBuf ++
        [msgOrSentinel (formatByLevel cfg.level now e)] } : LoggerState)).maxItems) := by
    simp only [List.length_append, List.length_singleton]
    push_cast
    omega
  simp only [LogEntry, if_neg hl, hb]
  simp only [appendItemToBatch, if_neg hcond]
  rfl

lemma runEntries_item_no_trigger (cfg : Config) (hb : cfg.batch = BATCH_ITEM)
    (hl : cfg.level ≠ LL_NONE) :
    ∀ (es : List (String × logEntry)) (st : LoggerState),
      ((st.batchBuf.length : Int) + es.length < st.maxItems) →
      runEntries cfg st es =
        ({ st with batchBuf := st.batchBuf ++ es.map (renderAt cfg.level) }, noEff) := by
  intro es
  induction es with
  | nil =>
      intro st h
      simp [runEntries, List.append_nil]
  | cons p rest ih =>
      obtain ⟨now, e⟩ := p
      intro st h
      simp only [List.length_cons] at h
      have hstep := LogEntry_item_step cfg now st e hb hl (by push_cast at h ⊢; omega)
      simp only [runEntries, hstep]
      have hrest := ih { st with batchBuf := st.batchBuf ++ [renderAt cfg.level (now, e)] }
        (by simp only [List.length_append, List.length_singleton]; push_cast at h ⊢; omega)
      simp only [hrest, noEff_app]
      simp [List.append_assoc]

lemma runEntries_append (cfg : Config) (xs ys : List (String × logEntry)) :
    ∀ st : LoggerState,
      runEntries cfg st (xs ++ ys) =
        ((runEntries cfg (runEntries cfg st xs).1 ys).1,
         (runEntries cfg st xs).2.app (runEntries cfg (runEntries cfg st xs).1 ys).2) := by
  induction xs with
  | nil =>
      intro st
      simp [runEntries, noEff_app]
  | cons p rest ih =>
      obtain ⟨now, e⟩ := p
      intro st
      simp only [List.cons_append, runEntries, List.append_eq]
      rw [ih]
      simp [app_assoc]

end Siglog

namespace Siglog

open LogLevel Output BatchMode

/-- Scenario for claim C1: the logger has accepted one BATCH_NONE entry
(wg.Add(1) was done by LogEntry), so the outstanding counter is 1. -/
def c1st : LoggerState := { newLogger (Option.some ()) "d" with wgCount := 1 }

/-- Scenario for claim C1: the worker dequeues that entry while the
configured level is LL_NONE. -/
def c1res : LoopResult :=
  loopStep { level := LL_NONE, out := OUT_STDOUT, batch := BATCH_NONE } "d" "T"
    (Option.some ()) c1st
    (LoopEvent.recv (Option.some { caller := "SYSTEM", entry := "hello", level := LL_ERROR }))

/-- Claim C1: the claim says an entry dequeued under configured level
None is dropped but the outstanding counter is still decremented, so
Flush does not block forever.  The code's LL_NONE branch executes
`continue` without calling wg.Done: this theorem evaluates the loop at
such an entry and shows the entry is dropped (no effects, state
unchanged) yet wg.Done is called zero times, so the counter stays at 1
and Flush (wg.Wait) never returns. -/
theorem c1_worker_drop_on_none_skips_wg_done :
    c1res.wgDones = 0 ∧ c1res.eff = noEff ∧ c1res.st = c1st ∧
    c1res.exits = false ∧
    ¬ FlushReturns { c1st with wgCount := c1st.wgCount - c1res.wgDones } := by
  decide

/-- Scenario for claim C2: item batching with the default threshold 128,
one entry submitted, so it sits in batchBuf below the threshold. -/
def c2cfg : Config := { level := LL_ERROR, out := OUT_STDOUT, batch := BATCH_ITEM }

/-- Scenario for claim C2: the state and effects after that single
submission. -/
def c2res : LoggerState × Effects :=
  LogEntry c2cfg "T" (newLogger (Option.some ()) "d") "one" "SYSTEM" LL_ERROR

/-- Claim C2: the claim says Shutdown force-writes any nonempty
pendingBatch before closing.  The code's Shutdown is only Flush()
followed by close(in): this theorem shows that after one item-batched
submission the buffered rendering has not been written, Flush returns
immediately (the batching paths never touch the wait group), Shutdown
leaves batchBuf untouched while closing the queue, and the worker's
reaction to the closed queue is to exit without writing anything, so
the buffered entry is never written to the destination. -/
theorem c2_shutdown_leaves_pendingBatch_unwritten :
    c2res.2 = noEff ∧
    c2res.1.batchBuf = ["T: [SYSTEM][ERROR] - one\n"] ∧
    FlushReturns c2res.1 ∧
    (Shutdown c2res.1).queueClosed = true ∧
    (Shutdown c2res.1).batchBuf = ["T: [SYSTEM][ERROR] - one\n"] ∧
    (loopStep c2cfg "d" "T" (Option.some ()) (Shutdown c2res.1) LoopEvent.recvClosed).eff = noEff ∧
    (loopStep c2cfg "d" "T" (Option.some ()) (Shutdown c2res.1) LoopEvent.recvClosed).exits = true := by
  decide

/-- Scenario for claim C3: the README example: level WARN, item batching
with threshold 3, and three submissions, the last of level INFO which
the README says should not show up. -/
def c3cfg : Config := { level := LL_WARN, out := OUT_STDOUT, batch := BATCH_ITEM }

/-- Scenario for claim C3: the three submissions of the README example. -/
def c3entries : List (String × logEntry) :=
  [("T1", { caller := "SYSTEM", entry := "I want to log this warning.", level := LL_WARN }),
   ("T2", { caller := "SYSTEM", entry := "I want to log this error.", level := LL_ERROR }),
   ("T3", { caller := "SYSTEM", entry := "This should not show up.", level := LL_INFO })]

/-- Scenario for claim C3: run the three submissions. -/
def c3res : LoggerState × Effects :=
  runEntries c3cfg { newLogger (Option.some ()) "d" with maxItems := 3 } c3entries

/-- Claim C3: the claim says in every batch mode an entry is emitted only
if its level is at or below the configured level.  The batching paths of
LogEntry never compare the entry's level to the configured one: this
theorem runs the README example (configured WARN, item batching) and
shows the single batch write ends with the rendering of the INFO-level
entry even though INFO exceeds WARN, refuting the claim. -/
theorem c3_batch_mode_emits_entry_above_level :
    LL_WARN.toNat < LL_INFO.toNat ∧
    c3res.2.writes = [(Dest.stdout,
      "T1: [SYSTEM][WARN] - I want to log this warning.\n" ++
      ("T2: [SYSTEM][WARN] - I want to log this error.\n" ++
       "T3: [SYSTEM][WARN] - This should not show up.\n"))] ∧
    c3res.2.errs = [] ∧
    strEndsWith ((c3res.2.writes.headD (Dest.stdout, "")).2)
      "T3: [SYSTEM][WARN] - This should not show up.\n" = true ∧
    c3res.1.batchBuf = [] := by
  decide

/-- Scenario for claims C4: configured level Info, output ConsoleA
(stdout), no batching; submit ("warn text", "SYSTEM", Warn). -/
def c4cfg : Config := { level := LL_INFO, out := OUT_STDOUT, batch := BATCH_NONE }

/-- Scenario for claim C4: state and effects after the submission. -/
def c4sub : LoggerState × Effects :=
  LogEntry c4cfg "T" (newLogger (Option.some ()) "d") "warn text" "SYSTEM" LL_WARN

/-- Scenario for claim C4: the worker dequeues the submitted entry. -/
def c4res : LoopResult :=
  loopStep c4cfg "d" "T" (Option.some ()) { c4sub.1 with queue := [] }
    (LoopEvent.recv (Option.some { caller := "SYSTEM", entry := "warn text", level := LL_WARN }))

/-- Scenario for claim C4: the state after the worker's wg.Done, as
Flush observes it. -/
def c4after : LoggerState :=
  { c4res.st with wgCount := c4sub.1.wgCount - c4res.wgDones }

/-- Claim C4 counterexample: the claim says the round trip produces one
line ending in the token of the entry's own level, WARN.  The code
formats with the token of the CONFIGURED level (formatByLevel uses
levelName of GetLogLevel), so the single line produced is
"T: [SYSTEM][INFO] - warn text" plus newline, which does not end with
the claimed WARN text, with or without the trailing newline. -/
theorem c4_level_token_not_entry_level :
    c4sub.1.queue = [Option.some { caller := "SYSTEM", entry := "warn text", level := LL_WARN }] ∧
    c4sub.1.wgCount = 1 ∧
    c4res.eff.writes = [(Dest.stdout, "T: [SYSTEM][INFO] - warn text\n")] ∧
    c4res.wgDones = 1 ∧
    strEndsWith "T: [SYSTEM][INFO] - warn text\n" "[SYSTEM][WARN] - warn text\n" = false ∧
    strEndsWith "T: [SYSTEM][INFO] - warn text" "[SYSTEM][WARN] - warn text" = false := by
  decide

/-- Claim C4 as amended: with configured level Info, output ConsoleA and
batch mode None, submitting ("warn text", "SYSTEM", Warn) and flushing
produces exactly one rendered line at the destination, and it ends in
"[SYSTEM][INFO] - warn text": the level token rendered is the
currently configured level, not the entry's own level; the entry is
still emitted because Warn is at or below Info, and Flush returns after
the worker's single wg.Done. -/
theorem c4_round_trip_renders_configured_token :
    c4sub.1.queue = [Option.some { caller := "SYSTEM", entry := "warn text", level := LL_WARN }] ∧
    c4sub.2 = noEff ∧
    c4res.eff = { writes := [(Dest.stdout, "T: [SYSTEM][INFO] - warn text\n")], errs := [] } ∧
    strEndsWith "T: [SYSTEM][INFO] - warn text\n" "[SYSTEM][INFO] - warn text\n" = true ∧
    c4res.wgDones = 1 ∧
    FlushReturns c4after := by
  decide

/-- Scenario for claim C5: time-window batching, configured wait 30ms,
as in the repository's own time-batch test. -/
def c5cfg : Config := { level := LL_DEBUG, out := OUT_STDOUT, batch := BATCH_TIME }

/-- Scenario for claim C5: the logger before the submission (the timer
was stopped and drained by newLogger). -/
def c5st : LoggerState := { newLogger (Option.some ()) "d" with maxWait := 30000000 }

/-- Scenario for claim C5: state and effects after submitting "tick". -/
def c5res : LoggerState × Effects := LogEntry c5cfg "T" c5st "tick" "SYSTEM" LL_DEBUG

/-- Claim C5: the claim says each time-window submission appends to
pendingBatch AND re-arms the timer, so that waiting out the configured
wait and calling Flush yields the entry at the destination.  The code's
appendToTimer only appends: this theorem shows the timer is stopped
before the submission and still not armed after it (the only Reset of
the timer is inside the timer-fire branch itself, which can never run
first), nothing is written, the wait group stays at zero so Flush
returns immediately, and the rendering sits in batchBuf; the entry
therefore never reaches the destination, contrary to the claim and to
the repository's own test of this scenario. -/
theorem c5_time_batch_submission_never_arms_timer :
    c5st.timerArmed = false ∧
    c5res.1.timerArmed = false ∧
    c5res.1.wgCount = 0 ∧
    c5res.2 = noEff ∧
    c5res.1.batchBuf = ["T: [SYSTEM][DEBUG] - tick\n"] ∧
    FlushReturns c5res.1 := by
  decide

/-- Claim C6: in item-count batch mode, starting from an empty batch
buffer with configured max items N greater than 0, no write occurs on
any of the first N-1 submissions, and the Nth submission produces a
single write containing the concatenation of all N renderings in
submission order, after which the buffer is empty; no Flush is needed.
(The write hypothesis only excludes the degenerate sink of a nil file
handle, where writeToOut reports instead of writing.) -/
theorem c6_item_count_batch_flushes_exactly_at_threshold
    (cfg : Config) (st : LoggerState) (es : List (String × logEntry))
    (hb : cfg.batch = BATCH_ITEM) (hl : cfg.level ≠ LL_NONE)
    (hbuf : st.batchBuf = []) (hn : (es.length : Int) = st.maxItems)
    (hpos : 0 < st.maxItems)
    (hfile : cfg.out = OUT_FILE → st.file ≠ Option.none) :
    (∀ k : Nat, (k : Int) < st.maxItems →
      (runEntries cfg st (es.take k)).2 = noEff) ∧
    (runEntries cfg st es).2 =
      { writes := [(sinkDest cfg.out, String.join (es.map (renderAt cfg.level)))],
        errs := [] } ∧
    (runEntries cfg st es).1.batchBuf = [] := by
  refine ⟨?_, ?_⟩
  · intro k hk
    have hkes : k < es.length := by omega
    have := runEntries_item_no_trigger cfg hb hl (es.take k) st
      (by rw [hbuf]; simp only [List.length_nil, List.length_take]; push_cast; omega)
    rw [this]
  · have hne : es ≠ [] := by
      intro h0
      rw [h0] at hn
      simp only [List.length_nil] at hn
      omega
    obtain ⟨front, lastp, hsplit⟩ : ∃ front lastp, es = front ++ [lastp] :=
      ⟨es.dropLast, es.getLast hne, (List.dropLast_append_getLast hne).symm⟩
    subst hsplit
    have hfl : (front.length : Int) + 1 = st.maxItems := by
      simp only [List.length_append, List.length_singleton] at hn
      push_cast at hn ⊢
      omega
    have hfront := runEntries_item_no_trigger cfg hb hl front st
      (by rw [hbuf]; simp only [List.length_nil]; push_cast; omega)
    rw [hbuf] at hfront
    simp only [List.nil_append] at hfront
    obtain ⟨nowL, eL⟩ := lastp
    have htrig := LogEntry_item_trigger cfg nowL
      { st with batchBuf := front.map (renderAt cfg.level) } eL hb hl
      (by simp only [List.length_map]; omega)
    rw [runEntries_append, hfront]
    constructor
    · simp only [runEntries, htrig]
      rw [noEff_app, app_noEff, writeToOut_ok _ _ _ hfile]
      simp [List.map_append]
    · simp only [runEntries, htrig]

end Siglog

namespace Siglog

open LogLevel Output BatchMode

/-- Witness scenario for claim C6: threshold 2, two submissions. -/
def c6cfg : Config := { level := LL_DEBUG, out := OUT_STDOUT, batch := BATCH_ITEM }

/-- Witness scenario for claim C6: empty buffer, maxItems 2. -/
def c6st : LoggerState := { newLogger (Option.some ()) "d" with maxItems := 2 }

/-- Witness scenario for claim C6: the two submissions. -/
def c6es : List (String × logEntry) :=
  [("T1", { caller := "SYSTEM", entry := "one", level := LL_DEBUG }),
   ("T2", { caller := "SYSTEM", entry := "two", level := LL_DEBUG })]

/-- Claim C6 witness: the hypotheses hold at the concrete threshold-2
scenario and the theorem yields its conclusion there. -/
theorem c6_item_count_batch_witness :
    (c6cfg.batch = BATCH_ITEM ∧ c6cfg.level ≠ LL_NONE ∧ c6st.batchBuf = [] ∧
     (c6es.length : Int) = c6st.maxItems ∧ 0 < c6st.maxItems ∧
     (c6cfg.out = OUT_FILE → c6st.file ≠ Option.none)) ∧
    ((∀ k : Nat, (k : Int) < c6st.maxItems →
       (runEntries c6cfg c6st (c6es.take k)).2 = noEff) ∧
     (runEntries c6cfg c6st c6es).2 =
       { writes := [(sinkDest c6cfg.out, String.join (c6es.map (renderAt c6cfg.level)))],
         errs := [] } ∧
     (runEntries c6cfg c6st c6es).1.batchBuf = []) :=
  ⟨⟨by decide, by decide, by decide, by decide, by decide, by decide⟩,
   c6_item_count_batch_flushes_exactly_at_threshold c6cfg c6st c6es
     (by decide) (by decide) (by decide) (by decide) (by decide) (by decide)⟩

/-- Claim C7 counterexample: the claim says the formatter's output for
every entry ends with exactly one trailing line terminator.  The code
only appends a newline when the message does not already end with one;
it never strips extras, so a message already ending in two newlines
formats to an output ending in two newlines. -/
theorem c7_trailing_newline_not_exactly_one :
    msgOrSentinel (formatByLevel LL_INFO "T"
      { caller := "SYSTEM", entry := "x\n\n", level := LL_INFO }) =
      "T: [SYSTEM][INFO] - x\n\n" ∧
    ¬ exactlyOneTrailingNL "T: [SYSTEM][INFO] - x\n\n" := by
  decide

/-- Claim C7 as amended: for every entry the default formatter's output
ends with at least one trailing line terminator, and with exactly one
when the message does not already end in one; the input Entry is not
mutated (the Go function receives a by-value copy and the embedding is
a pure function), and formatting the same Entry twice yields identical
output except for the embedded timestamp token: the output is always
the timestamp followed by one fixed remainder string. -/
theorem c7_format_trailing_newline_and_timestamp_only
    (lvl : LogLevel) (le : logEntry) :
    ∃ rest : String,
      (∀ now : String, formatByLevel lvl now le = Except.ok (now ++ rest)) ∧
      (∀ now : String, (now ++ rest).data.getLast? = Option.some '\n') ∧
      (le.entry.data.getLast? ≠ Option.some '\n' →
        ∀ now : String, exactlyOneTrailingNL (now ++ rest)) := by
  refine ⟨": [" ++ (le.caller ++ ("][" ++ (levelName lvl ++ ("] - " ++
    (if le.entry.data.getLast? = Option.some '\n' then le.entry
     else le.entry ++ "\n"))))), ?_, ?_, ?_⟩
  · intro now
    rfl
  · intro now
    have hml : (if le.entry.data.getLast? = Option.some '\n' then le.entry
        else le.entry ++ "\n").data.getLast? = Option.some '\n' := by
      by_cases h : le.entry.data.getLast? = Option.some '\n'
      · rw [if_pos h]; exact h
      · rw [if_neg h, String.data_append]
        have hnl : ("\n" : String).data = ['\n'] := rfl
        rw [hnl, List.getLast?_concat]
    exact data_getLast?_append now _ (data_getLast?_append _ _
      (data_getLast?_append _ _ (data_getLast?_append _ _
        (data_getLast?_append _ _ (data_getLast?_append _ _ hml)))))
  · intro hne now
    rw [if_neg hne]
    apply exactlyOneTrailingNL_of_data _
      (now.data ++ (": [".data ++ (le.caller.data ++ ("][".data ++
        ((levelName lvl).data ++ ("] - ".data ++ le.entry.data))))))
    · have hnl : ("\n" : String).data = ['\n'] := rfl
      simp [String.data_append, hnl, List.append_assoc]
    · have hd : ("] - " : String).data.getLast? = Option.some ' ' := by decide
      cases hE : le.entry.data.getLast? with
      | none =>
          have he0 : le.entry.data = [] := by
            cases hdata : le.entry.data with
            | nil => rfl
            | cons x xs =>
                rw [hdata] at hE
                simp [List.getLast?] at hE
          rw [he0, List.append_nil]
          have hl : (now.data ++ (": [".data ++ (le.caller.data ++ ("][".data ++
              ((levelName lvl).data ++ "] - ".data))))).getLast? = Option.some ' ' :=
            getLast?_append_right _ _ (getLast?_append_right _ _
              (getLast?_append_right _ _ (getLast?_append_right _ _
                (getLast?_append_right _ _ hd))))
          rw [hl]
          decide
      | some c =>
          have hl : (now.data ++ (": [".data ++ (le.caller.data ++ ("][".data ++
              ((levelName lvl).data ++ ("] - ".data ++ le.entry.data)))))).getLast?
              = Option.some c :=
            getLast?_append_right _ _ (getLast?_append_right _ _
              (getLast?_append_right _ _ (getLast?_append_right _ _
                (getLast?_append_right _ _ (getLast?_append_right _ _ hE)))))
          rw [hl]
          intro hcc
          exact hne (hE ▸ hcc)

/-- Claim C7 witness: the amended theorem instantiated at a concrete
entry whose message has no trailing terminator. -/
theorem c7_format_witness :
    ∃ rest : String,
      (∀ now : String, formatByLevel LL_INFO now
        { caller := "SYSTEM", entry := "hello", level := LL_INFO } =
          Except.ok (now ++ rest)) ∧
      (∀ now : String, (now ++ rest).data.getLast? = Option.some '\n') ∧
      (({ caller := "SYSTEM", entry := "hello", level := LL_INFO } :
          logEntry).entry.data.getLast? ≠ Option.some '\n' →
        ∀ now : String, exactlyOneTrailingNL (now ++ rest)) :=
  c7_format_trailing_newline_and_timestamp_only LL_INFO
    { caller := "SYSTEM", entry := "hello", level := LL_INFO }

/-- Claim C8: when the configured output is the file destination and the
handle is nil (newLogger with a failed open leaves file nil), any write
through the Sink Writer reports the failure on the error console,
writes nothing to any destination, and does not crash; writeToOut
assigns no logger field, so the state is unchanged. -/
theorem c8_file_sink_nil_handle_reports_and_writes_nothing (s today : String) :
    (newLogger Option.none today).file = Option.none ∧
    writeToOut OUT_FILE ((newLogger Option.none today).file) s =
      { writes := [], errs := ["Could not open log file for writing."] } ∧
    (writeToOut OUT_FILE Option.none s).writes = [] :=
  ⟨rfl, rfl, rfl⟩

/-- Claim C9: the default formatter returns a nil error for every input
entry, so the `msg = COULD_NOT_WRITE_ENTRY` fallback shared by the
worker loop and the three batching appends (all of which compute
msgOrSentinel of formatByLevel) never substitutes the sentinel: the
message used is always the formatter's own output. -/
theorem c9_default_formatter_never_errors
    (lvl : LogLevel) (now : String) (le : logEntry) :
    ∃ s, formatByLevel lvl now le = Except.ok s ∧
      msgOrSentinel (formatByLevel lvl now le) = s :=
  ⟨_, rfl, rfl⟩

/-- Claim C10: with the level environment variable empty or holding an
unrecognized token, GetLogLevel returns LL_NONE (the empty case also
stores "NONE" back into the variable), and LogEntry under that
configured level returns at once with no effect for every output and
batch mode: every submission is suppressed exactly as under an explicit
None level. -/
theorem c10_unrecognized_level_token_suppresses (env : String)
    (h : env = "" ∨ levelValue env = Option.none) :
    (GetLogLevel env).1 = LL_NONE ∧
    (env = "" → (GetLogLevel env).2 = "NONE") ∧
    (∀ (om : Output) (bm : BatchMode) (now : String) (st : LoggerState)
        (en ca : String) (lv : LogLevel),
      LogEntry { level := (GetLogLevel env).1, out := om, batch := bm }
        now st en ca lv = (st, noEff)) := by
  have h1 : (GetLogLevel env).1 = LL_NONE := by
    rcases h with he | hv
    · simp [GetLogLevel, he]
    · by_cases he : env = "" <;> simp [GetLogLevel, he, hv]
  refine ⟨h1, ?_, ?_⟩
  · intro he
    simp [GetLogLevel, he, levelName]
  · intro om bm now st en ca lv
    rw [h1]
    simp [LogEntry]

/-- Claim C10 witness: the hypothesis holds for the unrecognized token
"VERBOSE" and the theorem yields its conclusion there. -/
theorem c10_unrecognized_level_token_witness :
    levelValue "VERBOSE" = Option.none ∧
    ((GetLogLevel "VERBOSE").1 = LL_NONE ∧
     ("VERBOSE" = "" → (GetLogLevel "VERBOSE").2 = "NONE") ∧
     (∀ (om : Output) (bm : BatchMode) (now : String) (st : LoggerState)
         (en ca : String) (lv : LogLevel),
       LogEntry { level := (GetLogLevel "VERBOSE").1, out := om, batch := bm }
         now st en ca lv = (st, noEff))) :=
  ⟨by decide, c10_unrecognized_level_token_suppresses "VERBOSE" (Or.inr (by decide))⟩

end Siglog
